import Mathlib

/-!
Verification of the Smart-Campus study-assistant client and its share-code
subsystem.  JavaScript strings are embedded shallowly as lists of Unicode
code points (`List Nat`); JS `null`-able strings become `Option (List Nat)`;
machine code points are small naturals, so no overflow modelling is needed.
Functions present in the frontend sources are translated from those sources;
the backend share-code service is not among the provided sources (only its
frontend callers are), so it is modelled from the specification where a claim
needs it, and each such definition is marked `Modelled from the spec:`.
-/

namespace SmartCampus

/-- A JavaScript string as its list of Unicode code points. -/
abbrev JStr := List Nat

/-- Code points of a Lean string literal, used to write concrete examples. -/
def strToCodes (s : String) : JStr := s.data.map Char.toNat

/-- JS whitespace recognised by `String.prototype.trim` (ASCII part:
space, tab, LF, VT, FF, CR). -/
def isJsSpace (c : Nat) : Bool :=
  c = 32 || c = 9 || c = 10 || c = 11 || c = 12 || c = 13

/-- `String.prototype.trim`: drop leading and trailing whitespace. -/
def jsTrim (l : JStr) : JStr :=
  ((l.dropWhile isJsSpace).reverse.dropWhile isJsSpace).reverse

/-- `String.prototype.toUpperCase` on one code point (ASCII range). -/
def jsToUpperChar (c : Nat) : Nat :=
  if 97 ≤ c ∧ c ≤ 122 then c - 32 else c

/-- Code point of an upper-case ASCII letter `A`–`Z` (what the regex
class `[A-Z]` matches). -/
def isUpperAZ (c : Nat) : Bool := 65 ≤ c && c ≤ 90

/-- Code point of any ASCII letter `A`–`Z` or `a`–`z`. -/
def isAsciiLetter (c : Nat) : Bool :=
  (65 ≤ c && c ≤ 90) || (97 ≤ c && c ≤ 122)

/-- `normalizeLetter` from `Workspace.js`:
`String(str).trim().toUpperCase().replace(/[^A-Z]/g, "").charAt(0)`;
`charAt(0)` of the empty string is the empty string. -/
def normalizeLetter (l : JStr) : JStr :=
  match ((jsTrim l).map jsToUpperChar).filter isUpperAZ with
  | [] => []
  | c :: _ => [c]

/-- The normalization rule as the spec words it: trim whitespace, upper-case,
strip every character that is not an ASCII letter, keep the first character
(empty when no letter remains).  Stated for comparison with
`normalizeLetter`, which is translated from the code. -/
def specNormalizeLetter (l : JStr) : JStr :=
  match ((jsTrim l).map jsToUpperChar).filter isAsciiLetter with
  | [] => []
  | c :: _ => [c]

/-- `QuizItem.isCorrect` from `Workspace.js`:
`(opt) => normalizeLetter(opt) === normalizeLetter(q.answer)`. -/
def isCorrect (answer opt : JStr) : Bool :=
  normalizeLetter opt == normalizeLetter answer

/-- `optionLabel` from `Workspace.js`: `String.fromCharCode(65 + i)`. -/
def optionLabel (i : Nat) : JStr := [65 + i]

/-- The per-index match rule as the claim words it: index `i` is judged
correct exactly when the normalized stored answer equals the positional
label letter of index `i`.  Stated for comparison with the code's rule. -/
def specLabelMatch (answer : JStr) (i : Nat) : Bool :=
  normalizeLetter answer == optionLabel i

lemma filter_isAsciiLetter_eq (l : JStr) :
    (l.map jsToUpperChar).filter isAsciiLetter
      = (l.map jsToUpperChar).filter isUpperAZ := by
  apply List.filter_congr
  intro c hc
  rcases List.mem_map.mp hc with ⟨x, _, rfl⟩
  simp only [jsToUpperChar, isAsciiLetter, isUpperAZ]
  by_cases h : 97 ≤ x ∧ x ≤ 122
  · simp only [if_pos h]
    have h65 : 65 ≤ x - 32 := by omega
    have h90 : x - 32 ≤ 90 := by omega
    simp [h65, h90]
  · simp only [if_neg h]
    by_cases h1 : 65 ≤ x
    · by_cases h2 : x ≤ 90
      · simp [h1, h2]
      · have h3 : ¬ (97 ≤ x ∧ x ≤ 122) := h
        by_cases h4 : 97 ≤ x
        · have h5 : ¬ x ≤ 122 := by omega
          simp [h2, h5]
        · have h5 : ¬ 97 ≤ x := h4
          simp [h2, h5]
    · have h2 : ¬ 97 ≤ x := by omega
      simp [h1, h2]

/-- C6: for every input string, `normalizeLetter` returns the first character
of the string obtained by trimming whitespace, upper-casing, and stripping
every character that is not an ASCII letter (empty when no letter remains);
in particular `"b) second choice"` normalizes to `"B"`. -/
theorem C6_normalizeLetter_spec :
    (∀ l : JStr, normalizeLetter l = specNormalizeLetter l) ∧
      normalizeLetter (strToCodes "b) second choice") = strToCodes "B" := by
  constructor
  · intro l
    unfold normalizeLetter specNormalizeLetter
    rw [filter_isAsciiLetter_eq]
  · decide

/-- C1 counterexample: with option list `["Stack", "Queue"]` and stored
answer `"b"`, the claim's positional rule selects index 1, yet the code does
not judge the option at index 1 (`"Queue"`) correct — `isCorrect` compares
first letters of option text, so it computes `Q ≠ B`. -/
theorem C1_counterexample :
    ¬ (isCorrect (strToCodes "b")
        ([strToCodes "Stack", strToCodes "Queue"].get ⟨1, by decide⟩) = true
      ↔ specLabelMatch (strToCodes "b") 1 = true) := by
  decide

/-- C1 (amended): an option at index `i` is judged correct exactly when the
normalized option text equals the normalized stored answer — the positional
label letter of the index plays no role; in particular, with option list
`["Stack", "Queue"]` and stored answer `"b"` no index is judged correct,
while stored answer `"q"` selects index 1. -/
theorem C1_quiz_match_by_option_text (options : List JStr) (answer : JStr)
    (i : Nat) (h : i < options.length) :
    (isCorrect answer (options.get ⟨i, h⟩) = true
        ↔ normalizeLetter (options.get ⟨i, h⟩) = normalizeLetter answer) ∧
      isCorrect (strToCodes "b") (strToCodes "Stack") = false ∧
      isCorrect (strToCodes "b") (strToCodes "Queue") = false ∧
      isCorrect (strToCodes "q") (strToCodes "Queue") = true := by
  refine ⟨?_, by decide, by decide, by decide⟩
  simp [isCorrect]

/-- Closed instance of `C1_quiz_match_by_option_text` at option list
`["Stack", "Queue"]`, index 1. -/
theorem C1_quiz_match_by_option_text_witness :
    (isCorrect (strToCodes "b")
        ([strToCodes "Stack", strToCodes "Queue"].get ⟨1, by decide⟩) = true
      ↔ normalizeLetter
          ([strToCodes "Stack", strToCodes "Queue"].get ⟨1, by decide⟩)
          = normalizeLetter (strToCodes "b")) :=
  (C1_quiz_match_by_option_text [strToCodes "Stack", strToCodes "Queue"]
    (strToCodes "b") 1 (by decide)).1

/- ==========================================================
   QuizItem click handling (`QuizItem` in Workspace.js)
========================================================== -/

/-- JS truthiness of the `selected` state (`string | null`): `null` and the
empty string are falsy. -/
def truthySelected : Option JStr → Bool
  | none => false
  | some s => !s.isEmpty

/-- One click on option `opt` in `QuizItem.handleClick`: if `selected` is
truthy the click returns immediately; otherwise the option is recorded and
`onAnswered(isCorrect(opt))` fires (modelled as the `Option Bool` event). -/
def handleClick (answer : JStr) (selected : Option JStr) (opt : JStr) :
    Option JStr × Option Bool :=
  if truthySelected selected then (selected, none)
  else (some opt, some (isCorrect answer opt))

/-- A sequence of clicks on one quiz item, returning the final `selected`
state and how many times `onAnswered` was invoked. -/
def runClicks (answer : JStr) (selected : Option JStr) :
    List JStr → Option JStr × Nat
  | [] => (selected, 0)
  | opt :: rest =>
    let r := handleClick answer selected opt
    let t := runClicks answer r.1 rest
    (t.1, (if r.2.isSome then 1 else 0) + t.2)

/-- C9 counterexample: clicking the empty-string option and then `"Queue"`
changes the recorded selection after it was already set and invokes
`onAnswered` twice — the lock `if (selected) return` tests JS truthiness,
and an empty-string selection is falsy. -/
theorem C9_counterexample :
    runClicks (strToCodes "b") none [[], strToCodes "Queue"]
        = (some (strToCodes "Queue"), 2) ∧
      (handleClick (strToCodes "b") none []).1 = some [] ∧
      some (strToCodes "Queue") ≠ (some ([] : JStr)) := by
  refine ⟨by decide, by decide, by decide⟩

lemma runClicks_locked (answer : JStr) (selected : Option JStr)
    (hsel : truthySelected selected = true) (opts : List JStr) :
    runClicks answer selected opts = (selected, 0) := by
  induction opts with
  | nil => rfl
  | cons opt rest ih =>
    simp only [runClicks, handleClick, hsel, if_true, ih, Option.isSome_none]
    rfl

/-- C9 (amended): once a non-empty option has been selected, every
subsequent click on any option of the question is ignored — the recorded
selection never changes and `onAnswered` fires exactly once for the whole
click sequence; selecting the empty-string option does not lock, because the
guard tests JS truthiness. -/
theorem C9_lock_after_nonempty_selection (answer opt : JStr)
    (h : opt ≠ []) (rest : List JStr) :
    runClicks answer none (opt :: rest) = (some opt, 1) := by
  have htr : truthySelected (some opt) = true := by
    simp [truthySelected, List.isEmpty_iff, h]
  simp only [runClicks, handleClick, truthySelected, Bool.false_eq_true,
    if_false]
  rw [runClicks_locked answer (some opt) htr rest]
  rfl

/-- Closed instance of `C9_lock_after_nonempty_selection`: after selecting
`"Queue"`, two further clicks are ignored and `onAnswered` fired once. -/
theorem C9_lock_after_nonempty_selection_witness :
    runClicks (strToCodes "b") none
        [strToCodes "Queue", strToCodes "Stack", strToCodes "Queue"]
      = (some (strToCodes "Queue"), 1) :=
  C9_lock_after_nonempty_selection (strToCodes "b") (strToCodes "Queue")
    (by decide) [strToCodes "Stack", strToCodes "Queue"]

/- ==========================================================
   Quiz statistics (`quizStats`, `handleQuizAnswered`,
   `handleResetQuiz`, `quizAccuracy` in Workspace.js)
========================================================== -/

/-- The `quizStats` state `{ answered, correct }`. -/
structure QuizStats where
  answered : Nat
  correct : Nat
  deriving DecidableEq

/-- Initial `quizStats` value `{ answered: 0, correct: 0 }`. -/
def initStats : QuizStats := ⟨0, 0⟩

/-- Events that update `quizStats`: `handleQuizAnswered(isCorrect)`, and the
resets performed by `handleResetQuiz`, `handleQuiz` and the quiz branch of
`handleLoadShareCode`. -/
inductive QuizEvent where
  | answeredEv (isCorrectArg : Bool)
  | resetEv

/-- One state update of `quizStats`. -/
def stepStats (st : QuizStats) : QuizEvent → QuizStats
  | .answeredEv b => ⟨st.answered + 1, st.correct + (if b then 1 else 0)⟩
  | .resetEv => ⟨0, 0⟩

/-- The `quizStats` state reached from the initial state by a sequence of
events. -/
def runStats (evs : List QuizEvent) : QuizStats :=
  evs.foldl stepStats initStats

/-- `quizAccuracy` from Workspace.js:
`answered > 0 ? Math.round((correct / answered) * 100) : 0`, with the
arithmetic taken exactly; for nonnegative x, `Math.round x = ⌊x + 1/2⌋`, and
`⌊100·c/a + 1/2⌋ = (200·c + a) / (2·a)` in floor division. -/
def quizAccuracy (st : QuizStats) : Nat :=
  if 0 < st.answered then (200 * st.correct + st.answered) / (2 * st.answered)
  else 0

lemma stepStats_invariant (st : QuizStats) (e : QuizEvent)
    (h : st.correct ≤ st.answered) :
    (stepStats st e).correct ≤ (stepStats st e).answered := by
  cases e with
  | answeredEv b => cases b <;> simp [stepStats] <;> omega
  | resetEv => simp [stepStats]

lemma foldl_stats_invariant (evs : List QuizEvent) (st : QuizStats)
    (h : st.correct ≤ st.answered) :
    (evs.foldl stepStats st).correct ≤ (evs.foldl stepStats st).answered := by
  induction evs generalizing st with
  | nil => exact h
  | cons e rest ih => exact ih (stepStats st e) (stepStats_invariant st e h)

lemma quizAccuracy_le_100 (st : QuizStats) (h : st.correct ≤ st.answered) :
    quizAccuracy st ≤ 100 := by
  unfold quizAccuracy
  by_cases ha : 0 < st.answered
  · simp only [if_pos ha]
    have : 200 * st.correct + st.answered < 2 * st.answered * 101 := by omega
    exact Nat.lt_succ_iff.mp (Nat.div_lt_of_lt_mul (by omega))
  · simp [ha]

/-- C8: from the initial `quizStats` state, every state reachable by any
sequence of answer events and resets satisfies `correct ≤ answered`, and the
displayed accuracy is an integer between 0 and 100, equal to 0 when
`answered` is 0 (the division is guarded). -/
theorem C8_quiz_stats_invariant (evs : List QuizEvent) :
    (runStats evs).correct ≤ (runStats evs).answered ∧
      quizAccuracy (runStats evs) ≤ 100 ∧
      ((runStats evs).answered = 0 → quizAccuracy (runStats evs) = 0) := by
  have hinv : (runStats evs).correct ≤ (runStats evs).answered :=
    foldl_stats_invariant evs initStats (by simp [initStats])
  refine ⟨hinv, quizAccuracy_le_100 _ hinv, ?_⟩
  intro h0
  simp [quizAccuracy, h0]

/- ==========================================================
   Share payload construction (`handleCreateShareCode`
   in Workspace.js), ask and summary branches
========================================================== -/

/-- The relevant Ask-tab state of `Workspace`. -/
structure AskState where
  question : JStr
  answer : JStr
  deriving DecidableEq

/-- An `ask` share content object `{ question, answer }`. -/
structure AskContent where
  question : JStr
  answer : JStr
  deriving DecidableEq

/-- The `ask` branch of `handleCreateShareCode`: abort (alert) when the
current answer trims to empty, otherwise submit
`{ question: question || "", answer: answer || "" }`; `x || ""` equals `x`
for every string `x`. -/
def buildAskPayload (s : AskState) : Option AskContent :=
  if (jsTrim s.answer).isEmpty then none
  else some ⟨s.question, s.answer⟩

/-- JS `a || b` for `a : string | null` (falsy: `null` and `""`). -/
def jsOrElse (a : Option JStr) (b : JStr) : JStr :=
  match a with
  | none => b
  | some s => if s.isEmpty then b else s

/-- The relevant Summary-tab state of `Workspace`. -/
structure SummaryState where
  summaryFocus : JStr
  summary : JStr
  markType : JStr
  summaryMarkTypeUsed : Option JStr
  deriving DecidableEq

/-- A `summary` share content object `{ focus, summary, mark_type }`. -/
structure SummaryContent where
  focus : JStr
  summary : JStr
  markTypeField : JStr
  deriving DecidableEq

/-- The `summary` branch of `handleCreateShareCode`: abort (alert) when the
current summary trims to empty, otherwise submit
`{ focus: summaryFocus || "", summary: summary || "",
mark_type: summaryMarkTypeUsed || markType }`. -/
def buildSummaryPayload (s : SummaryState) : Option SummaryContent :=
  if (jsTrim s.summary).isEmpty then none
  else some ⟨s.summaryFocus, s.summary,
    jsOrElse s.summaryMarkTypeUsed s.markType⟩

/-- C4 counterexample: with the question field cleared (it is freely
editable after an answer arrives, and is not checked by the `ask` branch),
the create path submits an `ask` payload whose `question` is empty after
trimming. -/
theorem C4_counterexample :
    buildAskPayload ⟨[], strToCodes "A LIFO structure."⟩
        = some ⟨[], strToCodes "A LIFO structure."⟩ ∧
      (jsTrim ([] : JStr)).isEmpty = true := by
  refine ⟨by decide, by decide⟩

/-- C4 (amended): every `ask` share payload submitted by the create path has
an `answer` field that is non-empty after trimming; the `question` field is
copied from state unchecked and may be empty. -/
theorem C4_ask_payload_answer_nonempty (s : AskState) (p : AskContent)
    (h : buildAskPayload s = some p) :
    (jsTrim p.answer).isEmpty = false ∧
      p.question = s.question ∧ p.answer = s.answer := by
  unfold buildAskPayload at h
  by_cases he : (jsTrim s.answer).isEmpty
  · simp [he] at h
  · rw [if_neg he] at h
    cases h
    exact ⟨Bool.not_eq_true _ ▸ Bool.of_not_eq_true he, rfl, rfl⟩

/-- Closed instance of `C4_ask_payload_answer_nonempty` at the spec's
concrete ask scenario. -/
theorem C4_ask_payload_answer_nonempty_witness :
    (jsTrim (strToCodes "A LIFO structure.")).isEmpty = false ∧
      strToCodes "What is a stack?" = strToCodes "What is a stack?" ∧
      strToCodes "A LIFO structure." = strToCodes "A LIFO structure." :=
  C4_ask_payload_answer_nonempty
    ⟨strToCodes "What is a stack?", strToCodes "A LIFO structure."⟩
    ⟨strToCodes "What is a stack?", strToCodes "A LIFO structure."⟩
    (by decide)

/-- The three legal mark-type literals `"2"`, `"5"`, `"15"`. -/
def markLits : List JStr := [strToCodes "2", strToCodes "5", strToCodes "15"]

/-- C5 counterexample: nothing in the create path checks `mark_type`
membership in `{"2","5","15"}`; a state holding `"7"` (reachable because
`setSummaryMarkTypeUsed(data.mark_type || markType)` and
`setMarkType(content.mark_type || "2")` store server- and share-provided
values unvalidated) is submitted as `mark_type: "7"`. -/
theorem C5_counterexample :
    buildSummaryPayload
        ⟨[], strToCodes "Some summary", strToCodes "2",
          some (strToCodes "7")⟩
      = some ⟨[], strToCodes "Some summary", strToCodes "7"⟩ ∧
      (strToCodes "7" ∈ markLits) = False := by
  refine ⟨by decide, by simp; decide⟩

/-- C5 (amended): a submitted `summary` payload's `mark_type` equals
`summaryMarkTypeUsed` when that is non-null and non-empty, else `markType`;
the create path performs no membership check against `{"2","5","15"}`, so
the submitted value lies in that set only when the state values do. -/
theorem C5_summary_mark_type_passthrough (s : SummaryState)
    (p : SummaryContent) (h : buildSummaryPayload s = some p)
    (hm : s.markType ∈ markLits)
    (hu : ∀ u, s.summaryMarkTypeUsed = some u → u.isEmpty ∨ u ∈ markLits) :
    p.markTypeField = jsOrElse s.summaryMarkTypeUsed s.markType ∧
      p.markTypeField ∈ markLits := by
  unfold buildSummaryPayload at h
  by_cases he : (jsTrim s.summary).isEmpty
  · simp [he] at h
  · rw [if_neg he] at h
    cases h
    refine ⟨rfl, ?_⟩
    cases hs : s.summaryMarkTypeUsed with
    | none => simpa [jsOrElse] using hm
    | some u =>
      rcases hu u hs with hemp | hmem
      · simpa [jsOrElse, hemp] using hm
      · have hne : u.isEmpty = false := by
          cases u with
          | nil => simp [markLits, strToCodes] at hmem
          | cons c t => simp
        simpa [jsOrElse, hne] using hmem

/-- Closed instance of `C5_summary_mark_type_passthrough` with
`summaryMarkTypeUsed = "15"` and `markType = "2"`. -/
theorem C5_summary_mark_type_passthrough_witness :
    (strToCodes "15"
        = jsOrElse (some (strToCodes "15")) (strToCodes "2")) ∧
      strToCodes "15" ∈ markLits :=
  C5_summary_mark_type_passthrough
    ⟨[], strToCodes "Some summary", strToCodes "2", some (strToCodes "15")⟩
    ⟨[], strToCodes "Some summary", strToCodes "15"⟩ (by decide)
    (by decide)
    (by intro u hu; cases hu; right; decide)

/- ==========================================================
   Share-code service.  The backend (`backend/` in the repository
   layout) is not among the provided sources; only its frontend
   callers are.  The service below is modelled from the spec.
========================================================== -/

/-- The three share content types. -/
inductive ShareType where
  | ask
  | summary
  | quiz
  deriving DecidableEq

/-- A quiz question object `{ question, options, answer }`. -/
structure QuizQuestion where
  question : JStr
  options : List JStr
  answer : JStr
  deriving DecidableEq

/-- Modelled from the spec: a stored `summary` content object —
`summary` required, `focus` and `mark_type` optional. -/
structure SummaryStored where
  summary : JStr
  focus : Option JStr
  mark_type : Option JStr
  deriving DecidableEq

/-- A share content payload, tagged by shape. -/
inductive ShareContent where
  | askC (c : AskContent)
  | summaryC (c : SummaryStored)
  | quizC (qs : List QuizQuestion)
  deriving DecidableEq

/-- Code point of an ASCII digit `0`–`9`. -/
def isDigitCode (c : Nat) : Bool := 48 ≤ c && c ≤ 57

/-- A string of exactly 6 ASCII digits. -/
def isSixDigits (l : JStr) : Bool := l.length = 6 && l.all isDigitCode

/-- Numeric value of a digit string. -/
def codeVal (l : JStr) : Nat := l.foldl (fun a c => a * 10 + (c - 48)) 0

/-- The 6-digit string of a code value below 1,000,000
(leading zeros kept). -/
def encodeCode (n : Nat) : JStr :=
  [48 + n / 100000 % 10, 48 + n / 10000 % 10, 48 + n / 1000 % 10,
    48 + n / 100 % 10, 48 + n / 10 % 10, 48 + n % 10]

/-- Modelled from the spec: the quiz `answer` must match, under
`normalizeLetter`, the label letter of one of the option positions. -/
def answerMatchesLabel (q : QuizQuestion) : Bool :=
  (List.range q.options.length).any
    (fun i => normalizeLetter q.answer == optionLabel i)

/-- Modelled from the spec: one quiz question is valid when it has at least
2 options and its answer matches some positional label. -/
def validQuizQuestion (q : QuizQuestion) : Bool :=
  decide (2 ≤ q.options.length) && answerMatchesLabel q

/-- Modelled from the spec: `PayloadValidator.validate` — per-type shape
check of a content payload (ask: both fields non-empty after trimming;
summary: `summary` non-empty and `mark_type`, if present, one of `"2"`,
`"5"`, `"15"`; quiz: at least one valid question). -/
def validateContent : ShareType → ShareContent → Bool
  | .ask, .askC c =>
    !(jsTrim c.question).isEmpty && !(jsTrim c.answer).isEmpty
  | .summary, .summaryC c =>
    !c.summary.isEmpty &&
      (match c.mark_type with
        | none => true
        | some m => markLits.contains m)
  | .quiz, .quizC qs => decide (1 ≤ qs.length) && qs.all validQuizQuestion
  | _, _ => false

/-- Modelled from the spec: one stored share entry
`{code → (type, content, created_at)}`, keyed below by numeric code value. -/
structure ShareEntry where
  shType : ShareType
  content : ShareContent
  createdAt : Nat
  deriving DecidableEq

/-- Modelled from the spec: the `ShareStore` as a map from numeric code
values to entries. -/
abbrev ShareStore := List (Nat × ShareEntry)

/-- `ShareStore` existence check for a code value. -/
def storeHas (st : ShareStore) (c : Nat) : Bool := (st.lookup c).isSome

/-- Modelled from the spec: the fixed retry cap of the code generator. -/
def retryCap : Nat := 20

/-- Modelled from the spec: `CodeGenerator.generate` — try the random
candidates (supplied as a stream `cands`, each a value in the 10^6 code
space) in order, at most `retryCap` of them, returning the first that does
not collide; `none` means the cap was exhausted.  The loop is a bounded
search, total by construction. -/
def generate (cands : Nat → Fin 1000000) (inUse : Nat → Bool) : Option Nat :=
  ((List.range retryCap).map (fun i => (cands i).val)).find?
    (fun c => !inUse c)

/-- Errors of the create path. -/
inductive CreateError where
  | validationError
  | capacityError
  deriving DecidableEq

/-- Modelled from the spec: `ShareService.create` — validate, then generate
a non-colliding code under the retry cap, then persist; returns the new
code and store. -/
def createShare (cands : Nat → Fin 1000000) (ty : ShareType)
    (c : ShareContent) (st : ShareStore) (now : Nat) :
    Except CreateError (Nat × ShareStore) :=
  if validateContent ty c then
    match generate cands (storeHas st) with
    | some code => .ok (code, (code, ⟨ty, c, now⟩) :: st)
    | none => .error .capacityError
  else .error .validationError

/-- Errors of the get path. -/
inductive GetError where
  | invalidCodeFormat
  | notFound
  | integrityError
  deriving DecidableEq

deriving instance DecidableEq for Except

/-- Modelled from the spec: `ShareService.get` — reject unless the input is
exactly 6 digits (before any store access), then look up, then defensively
re-validate the stored content. -/
def getShare (st : ShareStore) (s : JStr) :
    Except GetError (ShareType × ShareContent) :=
  if isSixDigits s then
    match st.lookup (codeVal s) with
    | none => .error .notFound
    | some e =>
      if validateContent e.shType e.content then .ok (e.shType, e.content)
      else .error .integrityError
  else .error .invalidCodeFormat

/-- Outcome of the client-side load-by-code handler: either the client's own
format alert, or the service result. -/
inductive LoadOutcome where
  | clientFormatError
  | serviceResult (r : Except GetError (ShareType × ShareContent))
  deriving DecidableEq

/-- `handleLoadShareCode` from Workspace.js (client side): trim the input,
alert when it is empty or its length is not 6, otherwise call the share
service with the trimmed code. -/
def handleLoadShareCode (st : ShareStore) (input : JStr) : LoadOutcome :=
  let code := jsTrim input
  if code.isEmpty then .clientFormatError
  else if code.length ≠ 6 then .clientFormatError
  else .serviceResult (getShare st code)

lemma encode_isSixDigits (n : Nat) : isSixDigits (encodeCode n) = true := by
  have h1 : n / 100000 % 10 < 10 := Nat.mod_lt _ (by omega)
  have h2 : n / 10000 % 10 < 10 := Nat.mod_lt _ (by omega)
  have h3 : n / 1000 % 10 < 10 := Nat.mod_lt _ (by omega)
  have h4 : n / 100 % 10 < 10 := Nat.mod_lt _ (by omega)
  have h5 : n / 10 % 10 < 10 := Nat.mod_lt _ (by omega)
  have h6 : n % 10 < 10 := Nat.mod_lt _ (by omega)
  simp [isSixDigits, encodeCode, isDigitCode]
  omega

lemma codeVal_encode (n : Nat) (h : n < 1000000) :
    codeVal (encodeCode n) = n := by
  simp only [codeVal, encodeCode, List.foldl_cons, List.foldl_nil]
  omega

lemma generate_lt (cands : Nat → Fin 1000000) (inUse : Nat → Bool)
    (code : Nat) (h : generate cands inUse = some code) : code < 1000000 := by
  unfold generate at h
  have hmem := List.mem_of_find?_eq_some h
  rcases List.mem_map.mp hmem with ⟨i, _, rfl⟩
  exact (cands i).isLt

/-- C2: whenever `create(type, content)` succeeds with a code, an immediate
`get` of that code's 6-digit string returns exactly the type and content
originally passed to `create`. -/
theorem C2_create_then_get_roundtrip (cands : Nat → Fin 1000000)
    (ty : ShareType) (c : ShareContent) (st : ShareStore) (now : Nat)
    (code : Nat) (st2 : ShareStore)
    (h : createShare cands ty c st now = .ok (code, st2)) :
    getShare st2 (encodeCode code) = .ok (ty, c) := by
  unfold createShare at h
  by_cases hv : validateContent ty c = true
  · rw [if_pos hv] at h
    cases hg : generate cands (storeHas st) with
    | none => rw [hg] at h; exact absurd h (by simp)
    | some code2 =>
      rw [hg] at h
      simp only [Except.ok.injEq, Prod.mk.injEq] at h
      obtain ⟨rfl, rfl⟩ := h
      have hlt : code2 < 1000000 := generate_lt cands (storeHas st) code2 hg
      unfold getShare
      rw [if_pos (encode_isSixDigits code2), codeVal_encode code2 hlt]
      simp [List.lookup, hv]
  · rw [if_neg hv] at h
    exact absurd h (by simp)

/-- Closed instance of `C2_create_then_get_roundtrip` at the spec's concrete
scenario: `create("ask", ⟨"What is a stack?", "A LIFO structure."⟩)` on the
empty store, followed by `get` of the returned code. -/
theorem C2_create_then_get_roundtrip_witness :
    getShare
        [(0, ⟨ShareType.ask,
          ShareContent.askC
            ⟨strToCodes "What is a stack?", strToCodes "A LIFO structure."⟩,
          0⟩)]
        (encodeCode 0)
      = .ok (ShareType.ask,
          ShareContent.askC
            ⟨strToCodes "What is a stack?", strToCodes "A LIFO structure."⟩) :=
  C2_create_then_get_roundtrip (fun _ => (0 : Fin 1000000)) ShareType.ask
    (ShareContent.askC
      ⟨strToCodes "What is a stack?", strToCodes "A LIFO structure."⟩)
    [] 0 0
    [(0, ⟨ShareType.ask,
      ShareContent.askC
        ⟨strToCodes "What is a stack?", strToCodes "A LIFO structure."⟩,
      0⟩)]
    (by decide)

/-- C3: for every input whose trimmed form is not exactly 6 ASCII digits,
the load-by-code operation (client pre-check composed with the service)
fails with a format error, and its outcome is independent of the store
(the store is never consulted); `"12"` and `"1234567"` stop at the client
length check, `"abcdef"` at the service digit check. -/
theorem C3_malformed_code_rejected (input : JStr)
    (h : isSixDigits (jsTrim input) = false) (st : ShareStore) :
    (handleLoadShareCode st input = .clientFormatError ∨
        handleLoadShareCode st input
          = .serviceResult (.error .invalidCodeFormat)) ∧
      handleLoadShareCode st input = handleLoadShareCode [] input := by
  unfold handleLoadShareCode
  by_cases he : (jsTrim input).isEmpty
  · simp [he]
  · simp only [he, Bool.false_eq_true, if_false]
    by_cases hl : (jsTrim input).length = 6
    · have hnd : getShare st (jsTrim input) = .error .invalidCodeFormat := by
        unfold getShare
        rw [if_neg (by simp [h])]
      have hnd0 : getShare [] (jsTrim input) = .error .invalidCodeFormat := by
        unfold getShare
        rw [if_neg (by simp [h])]
      simp [hl, hnd, hnd0]
    · simp [hl]

/-- Closed instance of `C3_malformed_code_rejected`: the three spec inputs
`"12"`, `"abcdef"`, `"1234567"` are all rejected with a format error on a
non-empty store, with the same outcome as on the empty store. -/
theorem C3_malformed_code_rejected_witness :
    ((handleLoadShareCode [(0, ⟨ShareType.ask, ShareContent.askC ⟨[97], [98]⟩, 0⟩)]
          (strToCodes "12") = .clientFormatError ∨
        handleLoadShareCode [(0, ⟨ShareType.ask, ShareContent.askC ⟨[97], [98]⟩, 0⟩)]
            (strToCodes "12")
          = .serviceResult (.error .invalidCodeFormat)) ∧
      handleLoadShareCode [(0, ⟨ShareType.ask, ShareContent.askC ⟨[97], [98]⟩, 0⟩)]
          (strToCodes "12")
        = handleLoadShareCode [] (strToCodes "12")) ∧
    ((handleLoadShareCode [(0, ⟨ShareType.ask, ShareContent.askC ⟨[97], [98]⟩, 0⟩)]
          (strToCodes "abcdef") = .clientFormatError ∨
        handleLoadShareCode [(0, ⟨ShareType.ask, ShareContent.askC ⟨[97], [98]⟩, 0⟩)]
            (strToCodes "abcdef")
          = .serviceResult (.error .invalidCodeFormat)) ∧
      handleLoadShareCode [(0, ⟨ShareType.ask, ShareContent.askC ⟨[97], [98]⟩, 0⟩)]
          (strToCodes "abcdef")
        = handleLoadShareCode [] (strToCodes "abcdef")) ∧
    ((handleLoadShareCode [(0, ⟨ShareType.ask, ShareContent.askC ⟨[97], [98]⟩, 0⟩)]
          (strToCodes "1234567") = .clientFormatError ∨
        handleLoadShareCode [(0, ⟨ShareType.ask, ShareContent.askC ⟨[97], [98]⟩, 0⟩)]
            (strToCodes "1234567")
          = .serviceResult (.error .invalidCodeFormat)) ∧
      handleLoadShareCode [(0, ⟨ShareType.ask, ShareContent.askC ⟨[97], [98]⟩, 0⟩)]
          (strToCodes "1234567")
        = handleLoadShareCode [] (strToCodes "1234567")) :=
  ⟨C3_malformed_code_rejected (strToCodes "12") (by decide) _,
    C3_malformed_code_rejected (strToCodes "abcdef") (by decide) _,
    C3_malformed_code_rejected (strToCodes "1234567") (by decide) _⟩

/-- C7: the generation loop inside `create` is a bounded search — its result
is fully determined by the first `retryCap` (20) candidate codes, so at most
20 generation attempts are ever made (and the function is total, so the
loop terminates on every store state); moreover, when all 20 candidates
collide with live codes, `create` fails with `CapacityError`. -/
theorem C7_generation_bounded (cands cands2 : Nat → Fin 1000000)
    (ty : ShareType) (c : ShareContent) (st : ShareStore) (now : Nat)
    (hagree : ∀ i, i < retryCap → cands i = cands2 i) :
    createShare cands ty c st now = createShare cands2 ty c st now ∧
      ((∀ i, i < retryCap → storeHas st (cands i).val = true) →
        validateContent ty c = true →
        createShare cands ty c st now = .error .capacityError) := by
  have hmap : (List.range retryCap).map (fun i => (cands i).val)
      = (List.range retryCap).map (fun i => (cands2 i).val) := by
    apply List.map_congr_left
    intro i hi
    rw [hagree i (List.mem_range.mp hi)]
  constructor
  · unfold createShare generate
    rw [hmap]
  · intro hcol hv
    unfold createShare generate
    rw [if_pos hv]
    have hnone : ((List.range retryCap).map (fun i => (cands i).val)).find?
        (fun co => !storeHas st co) = none := by
      rw [List.find?_eq_none]
      intro x hx
      rcases List.mem_map.mp hx with ⟨i, hi, rfl⟩
      rw [hcol i (List.mem_range.mp hi)]
      decide
    rw [hnone]

/-- Closed instance of `C7_generation_bounded`: with every candidate equal
to code 0 and a store already holding code 0, create fails with
`CapacityError`. -/
theorem C7_generation_bounded_witness :
    createShare (fun _ => (0 : Fin 1000000)) ShareType.ask
        (ShareContent.askC ⟨[97], [98]⟩)
        [(0, ⟨ShareType.ask, ShareContent.askC ⟨[97], [98]⟩, 0⟩)] 0
      = createShare (fun _ => (0 : Fin 1000000)) ShareType.ask
        (ShareContent.askC ⟨[97], [98]⟩)
        [(0, ⟨ShareType.ask, ShareContent.askC ⟨[97], [98]⟩, 0⟩)] 0 ∧
    ((∀ i, i < retryCap →
        storeHas [(0, ⟨ShareType.ask, ShareContent.askC ⟨[97], [98]⟩, 0⟩)]
          ((fun _ => (0 : Fin 1000000)) i).val = true) →
      validateContent ShareType.ask (ShareContent.askC ⟨[97], [98]⟩) = true →
      createShare (fun _ => (0 : Fin 1000000)) ShareType.ask
          (ShareContent.askC ⟨[97], [98]⟩)
          [(0, ⟨ShareType.ask, ShareContent.askC ⟨[97], [98]⟩, 0⟩)] 0
        = .error .capacityError) :=
  C7_generation_bounded (fun _ => (0 : Fin 1000000))
    (fun _ => (0 : Fin 1000000)) ShareType.ask
    (ShareContent.askC ⟨[97], [98]⟩)
    [(0, ⟨ShareType.ask, ShareContent.askC ⟨[97], [98]⟩, 0⟩)] 0
    (fun _ _ => rfl)

/- ==========================================================
   Auth localStorage helpers (`storage.js`)
========================================================== -/

/-- The two localStorage slots touched by `storage.js`: the values under
`sca_token` and `sca_user` (`none` = key absent, the result of
`localStorage.getItem` being `null`). -/
structure AuthStorage where
  tokenVal : Option JStr
  userVal : Option JStr
  deriving DecidableEq

/-- `clearAuthFromStorage` from `storage.js`: remove both keys. -/
def clearAuthFromStorage (_st : AuthStorage) : AuthStorage := ⟨none, none⟩

/-- JS truthiness of a `string | null` value: `null` and `""` are falsy. -/
def jsTruthyOpt : Option JStr → Bool
  | none => false
  | some s => !s.isEmpty

/-- `loadAuthFromStorage` from `storage.js`, with `JSON.parse` (a JS
builtin) supplied as a fallible function `parse` (`none` = throws); returns
the `{token, user}` result together with the storage left behind.  The
`if (!token || !userStr)` guard tests JS truthiness; the `catch` branch of a
parse failure clears both keys.  The inner `none` arm is unreachable under
the truthiness guard but is required by the pattern match. -/
def loadAuthFromStorage {V : Type} (parse : JStr → Option V)
    (st : AuthStorage) : (Option JStr × Option V) × AuthStorage :=
  if !jsTruthyOpt st.tokenVal || !jsTruthyOpt st.userVal then
    ((none, none), st)
  else
    match st.userVal with
    | none => ((none, none), st)
    | some us =>
      match parse us with
      | some u => ((st.tokenVal, some u), st)
      | none => ((none, none), clearAuthFromStorage st)

/-- The behaviour as the claim words it: absent key → `{null, null}` with
storage untouched; parse failure → both keys removed and `{null, null}`;
otherwise the stored token with the parsed user.  Stated for comparison
with `loadAuthFromStorage`, which is translated from the code. -/
def claimLoadAuth {V : Type} (parse : JStr → Option V)
    (st : AuthStorage) : (Option JStr × Option V) × AuthStorage :=
  match st.tokenVal, st.userVal with
  | none, _ => ((none, none), st)
  | some _, none => ((none, none), st)
  | some tk, some us =>
    match parse us with
    | some u => ((some tk, some u), st)
    | none => ((none, none), ⟨none, none⟩)

/-- A concrete stand-in for `JSON.parse`: fails exactly on the empty string
(as `JSON.parse("")` throws). -/
def parseNonEmpty (l : JStr) : Option JStr :=
  if l.isEmpty then none else some l

/-- C10 counterexample: with the token key holding `"a"` and the user key
holding the empty string, parsing the stored user string fails, yet the code
returns `{null, null}` **without removing the keys** (the truthiness guard
fires first), while the claim requires both keys removed; the user key is
still present afterwards. -/
theorem C10_counterexample :
    loadAuthFromStorage parseNonEmpty ⟨some [97], some []⟩
        ≠ claimLoadAuth parseNonEmpty ⟨some [97], some []⟩ ∧
      parseNonEmpty [] = none ∧
      (loadAuthFromStorage parseNonEmpty ⟨some [97], some []⟩).2.userVal
        = some [] := by
  refine ⟨by decide, by decide, by decide⟩

/-- The amended behaviour: if either slot is absent **or holds the empty
string** (both falsy in JS), return `{null, null}` leaving storage
untouched; if both are non-empty and the user string fails to parse, remove
both keys and return `{null, null}`; otherwise return the stored token with
the parsed user.  Stated in spec style for comparison with the code. -/
def amendedLoadAuth {V : Type} (parse : JStr → Option V)
    (st : AuthStorage) : (Option JStr × Option V) × AuthStorage :=
  match st.tokenVal, st.userVal with
  | some (c :: tk), some (d :: us) =>
    match parse (d :: us) with
    | some u => ((some (c :: tk), some u), st)
    | none => ((none, none), ⟨none, none⟩)
  | _, _ => ((none, none), st)

/-- C10 (amended): `loadAuthFromStorage` is total (never throws, by
construction of the model) and behaves exactly as: either slot absent or
empty → `{null, null}` with storage unmodified; both slots non-empty but
user unparsable → both keys removed and `{null, null}`; otherwise the
stored token together with the parsed user. -/
theorem C10_loadAuth_total_behaviour {V : Type} (parse : JStr → Option V)
    (st : AuthStorage) :
    loadAuthFromStorage parse st = amendedLoadAuth parse st := by
  obtain ⟨tk, us⟩ := st
  cases tk with
  | none => simp [loadAuthFromStorage, amendedLoadAuth, jsTruthyOpt]
  | some t =>
    cases t with
    | nil =>
      cases us with
      | none => simp [loadAuthFromStorage, amendedLoadAuth, jsTruthyOpt]
      | some u =>
        cases u <;>
          simp [loadAuthFromStorage, amendedLoadAuth, jsTruthyOpt]
    | cons c ctk =>
      cases us with
      | none => simp [loadAuthFromStorage, amendedLoadAuth, jsTruthyOpt]
      | some u =>
        cases u with
        | nil => simp [loadAuthFromStorage, amendedLoadAuth, jsTruthyOpt]
        | cons d dus =>
          cases hp : parse (d :: dus) <;>
            simp [loadAuthFromStorage, amendedLoadAuth, jsTruthyOpt,
              clearAuthFromStorage, hp]

end SmartCampus
